import Mathlib

/-!
# Verification of the clevv-api-sync ingestion pipeline

Shallow embedding of the repository's four handlers:

* `src/unnamed/part_000` — a Netlify "push" handler (credential-only auth,
  Shopify fallback transform, bare upsert loop) followed by a Supabase Edge
  Function (`serve`) with full validation, per-item error containment and
  audit logging;
* `src/unnamed/part_001` — a Netlify handler with credential-or-store-mapping
  vendor resolution (store name preferred over shop domain header);
* `src/netlify/functions/catalog-sync.ts` — same shape, store-name-only
  fallback;
* `src/netlify/functions/whatsapp_product_sync.ts` — the conversational
  channel: webhook verification, AI extraction with deterministic fallback,
  and an upsert keyed on `external_id`.

JavaScript semantics relevant to the source (string falsiness, `||` defaults,
`parseFloat`, `slice`) are modelled by executable helpers below.  Numbers are
modelled as exact decimals `m * 10^e` (`Dec`); `NaN` is the `JsNum.nan`
constructor.  The persistent store is modelled as a list of rows together
with the upsert semantics the code requests from it (`ON CONFLICT` on a key,
whole-record replace).
-/

/-! ## JavaScript string and number primitives -/

/-- Characters treated as whitespace by the string trimming model. -/
def chIsWsp (c : Char) : Bool := c == ' ' || c == '\t' || c == '\n' || c == '\r'

/-- `prefixB p s` is true when the char list `p` is an initial segment of `s`. -/
def prefixB : List Char → List Char → Bool
  | [], _ => true
  | _ :: _, [] => false
  | p :: ps, c :: cs => p == c && prefixB ps cs

/-- Remove the first occurrence of `pat` from a char list (model of the
single-replacement behaviour of JavaScript `String.prototype.replace` with a
string pattern and empty replacement). -/
def removeFirst (pat : List Char) : List Char → List Char
  | [] => []
  | c :: rest =>
    if prefixB pat (c :: rest) then (c :: rest).drop pat.length
    else c :: removeFirst pat rest

/-- Trim leading and trailing whitespace (model of `String.prototype.trim`). -/
def chTrim (s : List Char) : List Char :=
  ((s.dropWhile chIsWsp).reverse.dropWhile chIsWsp).reverse

/-- Model of `auth.replace('Bearer ', '').trim()` from the Netlify handlers. -/
def extractToken (auth : String) : String :=
  ⟨chTrim (removeFirst "Bearer ".data auth.data)⟩

/-- Model of `String.prototype.startsWith`. -/
def myStartsWith (s pat : String) : Bool := prefixB pat.data s.data

/-- Model of `String.prototype.substring(n)` / `slice(n)` from position `n`. -/
def strDrop (s : String) (n : Nat) : String := ⟨s.data.drop n⟩

/-- Model of `String.prototype.slice(0, n)`. -/
def jsSlice (s : String) (n : Nat) : String := ⟨s.data.take n⟩

/-- JavaScript `s || d` for a possibly-absent string: `undefined`, `null` and
the empty string are falsy and yield the default. -/
def jsOrS (v : Option String) (d : String) : String :=
  match v with
  | some s => if s == "" then d else s
  | none => d

/-- JavaScript `s || d` for a plain string. -/
def jsOrSS (s d : String) : String := if s == "" then d else s

/-- JavaScript `s || null` for a possibly-absent string. -/
def jsOrNullS (v : Option String) : Option String :=
  match v with
  | some s => if s == "" then none else some s
  | none => none

/-- JavaScript falsiness of a possibly-absent string value. -/
def jsFalsyS (v : Option String) : Bool :=
  match v with
  | some s => s == ""
  | none => true

/-- JavaScript truthiness of a possibly-absent string value. -/
def jsTruthyS (v : Option String) : Bool := !jsFalsyS v

/-- JavaScript `n || d` for a possibly-absent integer (0 is falsy). -/
def jsOrI (v : Option Int) (d : Int) : Int :=
  match v with
  | some n => if n == 0 then d else n
  | none => d

/-- Exact decimal number `m * 10 ^ e`, the model of a JavaScript number as the
source manipulates it (JSON literals and `parseFloat` results are decimal
strings; no arithmetic is performed on prices anywhere in the source). -/
structure Dec where
  m : Int
  e : Int
  deriving Repr, DecidableEq

/-- A JavaScript number value: either `NaN` or an exact decimal. -/
inductive JsNum where
  | nan : JsNum
  | num : Dec → JsNum
  deriving Repr, DecidableEq

/-- JavaScript `x || null` for a possibly-absent number (`0` and `NaN` are
falsy and collapse to `null`). -/
def jsNumOrNull (v : Option JsNum) : Option Dec :=
  match v with
  | some (JsNum.num d) => if d.m == 0 then none else some d
  | _ => none

/-- JavaScript `x || 0` for a possibly-absent number. -/
def jsNumOr0 (v : Option JsNum) : Dec :=
  match v with
  | some (JsNum.num d) => if d.m == 0 then ⟨0, 0⟩ else d
  | _ => ⟨0, 0⟩

/-- Decimal digit list to natural number. -/
def digitsVal (cs : List Char) : Nat := cs.foldl (fun a c => a * 10 + (c.toNat - 48)) 0

/-- Exponent suffix of a `parseFloat` literal (`e`/`E`, optional sign, digits);
a malformed exponent suffix is ignored, as in JavaScript. -/
def parseExp (t : List Char) : Int :=
  let st : Int × List Char :=
    match t with
    | '-' :: u => (-1, u)
    | '+' :: u => (1, u)
    | _ => (1, t)
  let ed := st.2.takeWhile Char.isDigit
  if ed.isEmpty then 0 else st.1 * (digitsVal ed : Int)

/-- Model of JavaScript `parseFloat`: skip leading whitespace, optional sign,
longest prefix of digits with an optional decimal point and exponent; if no
digit is found the result is `NaN`. -/
def parseFloatJS (s : String) : JsNum :=
  let cs := s.data.dropWhile chIsWsp
  let sg : Int × List Char :=
    match cs with
    | '-' :: t => (-1, t)
    | '+' :: t => (1, t)
    | _ => (1, cs)
  let ip := sg.2.takeWhile Char.isDigit
  let cs2 := sg.2.dropWhile Char.isDigit
  let fprest : List Char × List Char :=
    match cs2 with
    | '.' :: t => (t.takeWhile Char.isDigit, t.dropWhile Char.isDigit)
    | _ => ([], cs2)
  if ip.isEmpty && fprest.1.isEmpty then JsNum.nan
  else
    let m : Int := sg.1 * (digitsVal (ip ++ fprest.1) : Int)
    let ex : Int :=
      match fprest.2 with
      | 'e' :: t => parseExp t
      | 'E' :: t => parseExp t
      | _ => 0
    JsNum.num ⟨m, ex - (fprest.1.length : Int)⟩

/-- Worker of `jsSetDedup`, carrying the set of already-seen elements. -/
def jsSetDedupGo (seen : List String) : List String → List String
  | [] => []
  | x :: rest =>
    if seen.contains x then jsSetDedupGo seen rest
    else x :: jsSetDedupGo (x :: seen) rest

/-- First-occurrence deduplication, the model of
`Array.from(new Set(xs))` in the WhatsApp handler. -/
def jsSetDedup (xs : List String) : List String := jsSetDedupGo [] xs

/-! ## Data model -/

/-- A metadata value inside the opaque `metadata` bag. -/
inductive MetaVal where
  | str : String → MetaVal
  | num : Int → MetaVal
  | undef : MetaVal
  deriving Repr, DecidableEq

/-- Opaque key-value metadata bag. -/
abbrev MetaBag := List (String × MetaVal)

/-- `metadata` value for a possibly-absent string field. -/
def metaOfOpt : Option String → MetaVal
  | some s => MetaVal.str s
  | none => MetaVal.undef

/-- `metadata` value for a possibly-absent numeric field. -/
def metaNumOfOpt : Option Int → MetaVal
  | some i => MetaVal.num i
  | none => MetaVal.undef

/-- Row of the `vendor_api_keys` table
(`select id, vendor_id, is_active ... eq api_key ... eq is_active true`). -/
structure ApiCredential where
  api_key : String
  vendor_id : String
  is_active : Bool
  deriving Repr, DecidableEq

/-- Row of the `shopify_store_mappings` table. -/
structure StoreMapping where
  store_name : String
  shop_url : String
  vendor_id : String
  deriving Repr, DecidableEq

/-- A Shopify variant object as read by the handlers
(`variants?.[0]?.price`, `variants?.[0]?.inventory_quantity`). -/
structure Variant where
  price : Option String
  inventory_quantity : Option Int
  deriving Repr, DecidableEq

/-- A Shopify image object (`images?.map(img => img.src)`). -/
structure ImageObj where
  src : String
  deriving Repr, DecidableEq

/-- An element of the `products` array of a request body, with every field
optional exactly as JSON allows. -/
structure ProductIn where
  external_id : Option String
  title : Option String
  description : Option String
  price : Option JsNum
  category : Option String
  inventory_count : Option Int
  status : Option String
  images : Option (List String)
  metadata : Option MetaBag
  deriving Repr, DecidableEq

/-- The `products` field of a raw JSON body: absent, an array, or present but
not an array (the flag records the JavaScript truthiness of that value). -/
inductive JsProducts where
  | absent : JsProducts
  | arrVal : List ProductIn → JsProducts
  | nonArray : Bool → JsProducts
  deriving Repr, DecidableEq

/-- The fields of a raw JSON request body that the handlers inspect. -/
structure RawBody where
  products : JsProducts
  id : Option Int
  title : Option String
  body_html : Option String
  product_type : Option String
  status : Option String
  vendor : Option String
  handle : Option String
  variants : Option (List Variant)
  images : Option (List ImageObj)
  deriving Repr, DecidableEq

/-- A raw body with every field absent. -/
def emptyRawBody : RawBody :=
  ⟨JsProducts.absent, none, none, none, none, none, none, none, none, none⟩

/-- Column values a catalog handler writes into a `vendor_listings` row
(besides the key). -/
structure ListingFields where
  title : Option String
  description : Option String
  price : Option Dec
  category : Option String
  inventory_count : Int
  status : String
  images : List String
  metadata : MetaBag
  source : Option String
  visible_on_dashboard : Option Bool
  deriving Repr, DecidableEq

/-- A persisted `vendor_listings` row (catalog channels). -/
structure Listing where
  vendor_id : String
  external_id : Option String
  fields : ListingFields
  deriving Repr, DecidableEq

/-! ## Store model: keyed upsert

The persistent store is external; the code requests
`upsert(..., { onConflict: 'vendor_id,external_id' })` (catalog channels) or
`Prefer: resolution=merge-duplicates` against a unique index on
`external_id` (WhatsApp channel).  Both are instances of the same semantics:
rows are keyed by an optional key; a row whose key matches an existing row
replaces it whole-record, otherwise it is appended (a `none` key, i.e. SQL
`NULL`, never conflicts). -/

/-- Key-match test between two rows under a key function. -/
def keyMatch {α κ : Type} [BEq κ] (keyf : α → Option κ) (a b : α) : Bool :=
  match keyf a, keyf b with
  | some x, some y => x == y
  | _, _ => false

/-- Keyed upsert: replace every key-matching row whole-record, else append. -/
def upsertRecord {α κ : Type} [BEq κ] (keyf : α → Option κ) (store : List α) (row : α) :
    List α :=
  if store.any (fun l => keyMatch keyf l row) then
    store.map (fun l => if keyMatch keyf l row then row else l)
  else store ++ [row]

/-- No two rows of the store share a (present) key. -/
def recNoDup {α κ : Type} [BEq κ] (keyf : α → Option κ) : List α → Bool
  | [] => true
  | l :: rest => rest.all (fun x => !keyMatch keyf l x) && recNoDup keyf rest

/-- Number of rows carrying the key `k`. -/
def recCount {α κ : Type} [BEq κ] (keyf : α → Option κ) (store : List α) (k : κ) : Nat :=
  (store.filter (fun l => keyf l == some k)).length

/-- Whether some row carries the key `k`. -/
def recHas {α κ : Type} [BEq κ] (keyf : α → Option κ) (store : List α) (k : κ) : Bool :=
  store.any (fun l => keyf l == some k)

/-- Conflict key of a catalog listing: the pair `(vendor_id, external_id)`,
per `onConflict: 'vendor_id,external_id'`. -/
def keyOf (l : Listing) : Option (String × String) :=
  match l.external_id with
  | some e => some (l.vendor_id, e)
  | none => none

/-- The catalog upsert (`supabase.from('vendor_listings').upsert(...,
{ onConflict: 'vendor_id,external_id' })`). -/
def upsertPair (store : List Listing) (row : Listing) : List Listing :=
  upsertRecord keyOf store row

/-- Uniqueness invariant of the catalog store: at most one listing per
`(vendor_id, external_id)` pair. -/
def noDupKeys (store : List Listing) : Bool := recNoDup keyOf store

/-! ## Properties of the keyed upsert -/

theorem keyMatch_true_iff {α κ : Type} [BEq κ] [LawfulBEq κ] (keyf : α → Option κ) (a b : α) :
    keyMatch keyf a b = true ↔ ∃ k, keyf a = some k ∧ keyf b = some k := by
  unfold keyMatch
  cases ha : keyf a <;> cases hb : keyf b <;> simp
  exact eq_comm

theorem keyMatch_self {α κ : Type} [BEq κ] [LawfulBEq κ] (keyf : α → Option κ) (a : α) (k : κ)
    (h : keyf a = some k) : keyMatch keyf a a = true := by
  rw [keyMatch_true_iff]
  exact ⟨k, h, h⟩

/-- Every row of the upserted store that key-matches the incoming row is the
incoming row itself (whole-record replacement, no field-level merge). -/
theorem upsertRecord_match_eq {α κ : Type} [BEq κ] [LawfulBEq κ] (keyf : α → Option κ)
    (store : List α) (row l : α) (hl : l ∈ upsertRecord keyf store row)
    (hm : keyMatch keyf l row = true) : l = row := by
  unfold upsertRecord at hl
  by_cases hany : store.any (fun x => keyMatch keyf x row) = true
  · simp only [hany, if_true] at hl
    obtain ⟨x, _, hfx⟩ := List.mem_map.mp hl
    by_cases hx : keyMatch keyf x row = true
    · simp only [hx, if_true] at hfx
      exact hfx.symm
    · simp only [hx] at hfx
      rw [if_neg (by simp [hx])] at hfx
      exact absurd (hfx ▸ hm) hx
  · simp only [hany, if_false] at hl
    rcases List.mem_append.mp hl with hin | hr
    · exact absurd (List.any_eq_true.mpr ⟨l, hin, hm⟩) hany
    · simpa using hr

/-- Upserting a keyed row makes its key present in the store. -/
theorem upsertRecord_has {α κ : Type} [BEq κ] [LawfulBEq κ] (keyf : α → Option κ)
    (store : List α) (row : α) (k : κ) (h : keyf row = some k) :
    recHas keyf (upsertRecord keyf store row) k = true := by
  unfold upsertRecord recHas
  by_cases hany : store.any (fun x => keyMatch keyf x row) = true
  · simp only [hany, if_true]
    obtain ⟨x, hx, hm⟩ := List.any_eq_true.mp hany
    refine List.any_eq_true.mpr ⟨row, ?_, by simp [h]⟩
    refine List.mem_map.mpr ⟨x, hx, ?_⟩
    simp [hm]
  · simp only [hany, if_false]
    refine List.any_eq_true.mpr ⟨row, by simp, by simp [h]⟩

/-- Replaying the very same row through the upsert leaves the store unchanged
(idempotent redelivery). -/
theorem upsertRecord_idem {α κ : Type} [BEq κ] [LawfulBEq κ] (keyf : α → Option κ)
    (store : List α) (row : α) (k : κ) (h : keyf row = some k) :
    upsertRecord keyf (upsertRecord keyf store row) row = upsertRecord keyf store row := by
  have hmem : row ∈ upsertRecord keyf store row := by
    unfold upsertRecord
    by_cases hany : store.any (fun x => keyMatch keyf x row) = true
    · simp only [hany, if_true]
      obtain ⟨x, hx, hm⟩ := List.any_eq_true.mp hany
      exact List.mem_map.mpr ⟨x, hx, by simp [hm]⟩
    · simp only [hany, if_false]
      simp
  have hany2 : (upsertRecord keyf store row).any (fun x => keyMatch keyf x row) = true :=
    List.any_eq_true.mpr ⟨row, hmem, keyMatch_self keyf row k h⟩
  have step : upsertRecord keyf (upsertRecord keyf store row) row
      = (upsertRecord keyf store row).map (fun l => if keyMatch keyf l row then row else l) := by
    generalize hs : upsertRecord keyf store row = s1 at hany2 ⊢
    unfold upsertRecord
    rw [if_pos hany2]
  rw [step]
  have : ∀ l ∈ upsertRecord keyf store row,
      (if keyMatch keyf l row then row else l) = l := by
    intro l hl
    by_cases hm : keyMatch keyf l row = true
    · simp [hm, upsertRecord_match_eq keyf store row l hl hm]
    · simp [hm]
  calc (upsertRecord keyf store row).map (fun l => if keyMatch keyf l row then row else l)
      = (upsertRecord keyf store row).map id := List.map_congr_left this
    _ = upsertRecord keyf store row := List.map_id _

theorem recCount_zero_of_not_has {α κ : Type} [BEq κ] [LawfulBEq κ] (keyf : α → Option κ)
    (store : List α) (k : κ) (h : recHas keyf store k = false) :
    recCount keyf store k = 0 := by
  unfold recCount
  rw [List.length_eq_zero, List.filter_eq_nil_iff]
  intro a ha
  intro hba
  have : recHas keyf store k = true := List.any_eq_true.mpr ⟨a, ha, hba⟩
  rw [this] at h
  exact Bool.noConfusion h

theorem keyMatch_comm {α κ : Type} [BEq κ] [LawfulBEq κ] (keyf : α → Option κ) (a b : α) :
    keyMatch keyf a b = keyMatch keyf b a := by
  unfold keyMatch
  cases keyf a <;> cases keyf b
  · rfl
  · rfl
  · rfl
  case some.some x y =>
    show (x == y) = (y == x)
    by_cases h : x = y
    · subst h; rfl
    · rw [beq_eq_false_iff_ne.mpr h, beq_eq_false_iff_ne.mpr (Ne.symm h)]

theorem recNoDup_cons_iff {α κ : Type} [BEq κ] (keyf : α → Option κ) (l : α) (rest : List α) :
    recNoDup keyf (l :: rest) = true ↔
      (∀ x ∈ rest, keyMatch keyf l x = false) ∧ recNoDup keyf rest = true := by
  simp [recNoDup, List.all_eq_true]

theorem count_map_replace {α κ : Type} [BEq κ] [LawfulBEq κ] (keyf : α → Option κ)
    (row : α) (k : κ) (hk : keyf row = some k) :
    ∀ store : List α, recNoDup keyf store = true →
      store.any (fun x => keyMatch keyf x row) = true →
      recCount keyf (store.map (fun l => if keyMatch keyf l row then row else l)) k = 1 := by
  intro store
  induction store with
  | nil => intro _ h; simp at h
  | cons l rest ih =>
    intro hnod hany
    obtain ⟨hl, hrest⟩ := (recNoDup_cons_iff keyf l rest).mp hnod
    by_cases hml : keyMatch keyf l row = true
    · simp only [List.map_cons, hml, if_true]
      have hzero : recCount keyf
          (rest.map (fun x => if keyMatch keyf x row then row else x)) k = 0 := by
        apply recCount_zero_of_not_has
        rw [recHas, List.any_eq_false]
        intro y hy
        obtain ⟨x, hx, hfx⟩ := List.mem_map.mp hy
        by_cases hmx : keyMatch keyf x row = true
        · obtain ⟨k2, hxk, hrk⟩ := (keyMatch_true_iff keyf x row).mp hmx
          rw [hk] at hrk
          obtain ⟨k3, hlk, hrk3⟩ := (keyMatch_true_iff keyf l row).mp hml
          rw [hk] at hrk3
          have : keyMatch keyf l x = true :=
            (keyMatch_true_iff keyf l x).mpr ⟨k, by rw [hlk, hrk3], by rw [hxk, hrk]⟩
          rw [hl x hx] at this
          exact Bool.noConfusion this
        · rw [if_neg (by simp [hmx])] at hfx
          intro hc
          have hyk : keyf y = some k := by simpa using hc
          have hxk : keyf x = some k := hfx ▸ hyk
          exact hmx ((keyMatch_true_iff keyf x row).mpr ⟨k, hxk, hk⟩)
      rw [recCount, List.filter_cons]
      simp only [hk, beq_self_eq_true, if_true]
      rw [List.length_cons]
      rw [recCount] at hzero
      omega
    · simp only [List.map_cons, hml, if_false]
      rw [if_neg (by simp [hml])]
      have hlk : (keyf l == some k) = false := by
        by_cases hc : keyf l = some k
        · exact absurd ((keyMatch_true_iff keyf l row).mpr ⟨k, hc, hk⟩) hml
        · simp [hc]
      have hany2 : rest.any (fun x => keyMatch keyf x row) = true := by
        rcases List.any_eq_true.mp hany with ⟨x, hx, hmx⟩
        rcases List.mem_cons.mp hx with hxl | hxr
        · subst hxl; exact absurd hmx hml
        · exact List.any_eq_true.mpr ⟨x, hxr, hmx⟩
      rw [recCount, List.filter_cons]
      simp only [hlk, if_false]
      exact ih hrest hany2

/-- After upserting a row keyed `k` into a duplicate-free store, exactly one
row carries the key `k`. -/
theorem upsertRecord_count_one {α κ : Type} [BEq κ] [LawfulBEq κ] (keyf : α → Option κ)
    (store : List α) (row : α) (k : κ) (hnod : recNoDup keyf store = true)
    (hk : keyf row = some k) :
    recCount keyf (upsertRecord keyf store row) k = 1 := by
  unfold upsertRecord
  by_cases hany : store.any (fun x => keyMatch keyf x row) = true
  · rw [if_pos hany]
    exact count_map_replace keyf row k hk store hnod hany
  · rw [if_neg hany]
    rw [recCount, List.filter_append]
    have h1 : store.filter (fun l => keyf l == some k) = [] := by
      rw [List.filter_eq_nil_iff]
      intro a ha hc
      have hak : keyf a = some k := by simpa using hc
      exact hany (List.any_eq_true.mpr
        ⟨a, ha, (keyMatch_true_iff keyf a row).mpr ⟨k, hak, hk⟩⟩)
    rw [h1]
    simp [hk]

theorem noDup_append_single {α κ : Type} [BEq κ] [LawfulBEq κ] (keyf : α → Option κ)
    (row : α) : ∀ store : List α, recNoDup keyf store = true →
      (∀ l ∈ store, keyMatch keyf l row = false) →
      recNoDup keyf (store ++ [row]) = true := by
  intro store
  induction store with
  | nil => intro _ _; simp [recNoDup]
  | cons l rest ih =>
    intro hnod hall
    obtain ⟨hl, hrest⟩ := (recNoDup_cons_iff keyf l rest).mp hnod
    rw [List.cons_append]
    apply (recNoDup_cons_iff keyf l (rest ++ [row])).mpr
    constructor
    · intro x hx
      rcases List.mem_append.mp hx with hxr | hxs
      · exact hl x hxr
      · rw [List.mem_singleton.mp hxs]
        exact hall l (List.mem_cons_self l rest)
    · exact ih hrest (fun x hx => hall x (List.mem_cons_of_mem l hx))

theorem noDup_map_replace {α κ : Type} [BEq κ] [LawfulBEq κ] (keyf : α → Option κ)
    (row : α) : ∀ store : List α, recNoDup keyf store = true →
      recNoDup keyf (store.map (fun l => if keyMatch keyf l row then row else l)) = true := by
  intro store
  induction store with
  | nil => intro _; simp [recNoDup]
  | cons l rest ih =>
    intro hnod
    obtain ⟨hl, hrest⟩ := (recNoDup_cons_iff keyf l rest).mp hnod
    rw [List.map_cons]
    apply (recNoDup_cons_iff keyf _ _).mpr
    refine ⟨?_, ih hrest⟩
    intro z hz
    obtain ⟨y, hy, hfy⟩ := List.mem_map.mp hz
    by_cases hml : keyMatch keyf l row = true
    · rw [if_pos hml]
      by_cases hmy : keyMatch keyf y row = true
      · obtain ⟨k1, hlk, hrk⟩ := (keyMatch_true_iff keyf l row).mp hml
        obtain ⟨k2, hyk, hrk2⟩ := (keyMatch_true_iff keyf y row).mp hmy
        rw [hrk] at hrk2
        have : keyMatch keyf l y = true :=
          (keyMatch_true_iff keyf l y).mpr ⟨k1, hlk, by rw [hyk, hrk2]⟩
        rw [hl y hy] at this
        exact Bool.noConfusion this
      · rw [if_neg (by simp [hmy])] at hfy
        subst hfy
        by_cases hry : keyMatch keyf row y = true
        · obtain ⟨k1, hrk, hyk⟩ := (keyMatch_true_iff keyf row y).mp hry
          exact absurd ((keyMatch_true_iff keyf y row).mpr ⟨k1, hyk, hrk⟩) hmy
        · simpa using hry
    · rw [if_neg (by simp [hml])]
      by_cases hmy : keyMatch keyf y row = true
      · rw [if_pos hmy] at hfy
        subst hfy
        simpa using hml
      · rw [if_neg (by simp [hmy])] at hfy
        subst hfy
        exact hl y hy

/-- Upserting preserves the key-uniqueness invariant: no duplicate row is
ever created. -/
theorem upsertRecord_noDup {α κ : Type} [BEq κ] [LawfulBEq κ] (keyf : α → Option κ)
    (store : List α) (row : α) (hnod : recNoDup keyf store = true) :
    recNoDup keyf (upsertRecord keyf store row) = true := by
  unfold upsertRecord
  by_cases hany : store.any (fun x => keyMatch keyf x row) = true
  · rw [if_pos hany]
    exact noDup_map_replace keyf row store hnod
  · rw [if_neg hany]
    apply noDup_append_single keyf row store hnod
    intro l hlmem
    by_cases h : keyMatch keyf l row = true
    · exact absurd (List.any_eq_true.mpr ⟨l, hlmem, h⟩) hany
    · simpa using h

/-! ## Vendor resolution -/

deriving instance DecidableEq for Except

/-- Rejection reasons of the Vendor Resolver. -/
inductive RejectReason where
  | invalidCredential : RejectReason
  | vendorUnmapped : RejectReason
  | missingVendorIdentifier : RejectReason
  deriving Repr, DecidableEq

/-- Credential lookup
(`.eq('api_key', token).eq('is_active', true).maybeSingle()`). -/
def credLookup (creds : List ApiCredential) (tok : String) : Option String :=
  (creds.find? (fun c => c.api_key == tok && c.is_active)).map (fun c => c.vendor_id)

/-- Vendor resolution of the `part_001` handler: nonempty token ⇒ credential
lookup; otherwise store-mapping lookup by body `vendor` name
(column `store_name`) or, failing that, by the `x-shopify-shop-domain`
header (column `shop_url`). -/
def resolveVendor (creds : List ApiCredential) (maps : List StoreMapping)
    (authHeader bodyVendor shopDomainHeader : Option String) :
    Except RejectReason String :=
  let token := extractToken (authHeader.getD "")
  if token == "" then
    let vendorName := bodyVendor.getD ""
    let shopDomain := shopDomainHeader.getD ""
    let storeLookupField := if vendorName == "" then shopDomain else vendorName
    let useNameColumn := !(vendorName == "")
    if storeLookupField == "" then Except.error RejectReason.missingVendorIdentifier
    else
      match maps.find? (fun m =>
          (if useNameColumn then m.store_name else m.shop_url) == storeLookupField) with
      | some m => Except.ok m.vendor_id
      | none => Except.error RejectReason.vendorUnmapped
  else
    match credLookup creds token with
    | some v => Except.ok v
    | none => Except.error RejectReason.invalidCredential

/-- Vendor resolution of `catalog-sync.ts`: nonempty token ⇒ credential
lookup; otherwise store-mapping lookup by body `vendor` name only. -/
def resolveVendorNameOnly (creds : List ApiCredential) (maps : List StoreMapping)
    (authHeader bodyVendor : Option String) : Except RejectReason String :=
  let token := extractToken (authHeader.getD "")
  if token == "" then
    let storeName := bodyVendor.getD ""
    if storeName == "" then Except.error RejectReason.missingVendorIdentifier
    else
      match maps.find? (fun m => m.store_name == storeName) with
      | some m => Except.ok m.vendor_id
      | none => Except.error RejectReason.vendorUnmapped
  else
    match credLookup creds token with
    | some v => Except.ok v
    | none => Except.error RejectReason.invalidCredential

/-- Vendor resolution of the push handler at the top of `part_000`: the
credential lookup alone, applied unconditionally to the extracted token. -/
def pushResolve (creds : List ApiCredential) (authHeader : Option String) :
    Except RejectReason String :=
  match credLookup creds (extractToken (authHeader.getD "")) with
  | some v => Except.ok v
  | none => Except.error RejectReason.invalidCredential

/-- Modelled from the spec (§4.1 Vendor Resolver): the strategy precedence
chain exactly as the spec words it — a present, non-empty bearer token means
credential lookup by exact value requiring `active = true` (no match ⇒
`invalid_credential`); otherwise the body's explicit vendor/store name is
preferred over the shop-domain header for the StoreMapping lookup (no match ⇒
`vendor_unmapped`); with no identifying field at all the request is rejected
as `missing_vendor_identifier`. -/
def specVendorResolve (creds : List ApiCredential) (maps : List StoreMapping)
    (authHeader bodyVendor shopDomainHeader : Option String) :
    Except RejectReason String :=
  let token := extractToken (authHeader.getD "")
  if token == "" then
    let name := bodyVendor.getD ""
    let domain := shopDomainHeader.getD ""
    if !(name == "") then
      match maps.find? (fun m => m.store_name == name) with
      | some m => Except.ok m.vendor_id
      | none => Except.error RejectReason.vendorUnmapped
    else if !(domain == "") then
      match maps.find? (fun m => m.shop_url == domain) with
      | some m => Except.ok m.vendor_id
      | none => Except.error RejectReason.vendorUnmapped
    else Except.error RejectReason.missingVendorIdentifier
  else
    match credLookup creds token with
    | some v => Except.ok v
    | none => Except.error RejectReason.invalidCredential

/-- The 401 message texts of the `part_001` handler. -/
def rejectMessage : RejectReason → String
  | RejectReason.invalidCredential => "Invalid API key"
  | RejectReason.vendorUnmapped => "Store not mapped to vendor"
  | RejectReason.missingVendorIdentifier => "No vendor/store identifier found"

/-- The 401 message texts of the `catalog-sync.ts` handler. -/
def rejectMessageNameOnly : RejectReason → String
  | RejectReason.invalidCredential => "Invalid API key"
  | RejectReason.vendorUnmapped => "No vendor matched for this store"
  | RejectReason.missingVendorIdentifier => "No vendor name provided in webhook"

/-! ## Edge-function (`serve`) pipeline of `part_000` -/

/-- `rawBody.variants?.[0]?.price || '0'`. -/
def variantPriceStr (vs : List Variant) : String :=
  match vs.head? with
  | some v =>
    match v.price with
    | some s => if s == "" then "0" else s
    | none => "0"
  | none => "0"

/-- `rawBody.variants?.[0]?.inventory_quantity`. -/
def firstVariantQty (vs : List Variant) : Option Int :=
  match vs.head? with
  | some v => v.inventory_quantity
  | none => none

/-- `rawBody.images?.map(img => img.src) || []`. -/
def imagesSrcs (im : Option (List ImageObj)) : List String :=
  match im with
  | some l => l.map ImageObj.src
  | none => []

/-- The single product the `serve` pipeline synthesizes from a Shopify-shaped
raw body (`'title' in rawBody && 'variants' in rawBody`), lines 143-164 of
`part_000`. -/
def serveShopifyProduct (b : RawBody) (i : Int) (vs : List Variant) : ProductIn :=
  { external_id := some (toString i)
    title := b.title
    description := some (jsOrS b.body_html "")
    price := some (parseFloatJS (variantPriceStr vs))
    category := some (jsOrS b.product_type "Uncategorized")
    inventory_count := some (jsOrI (firstVariantQty vs) 0)
    status := some (jsOrS b.status "active")
    images := some (imagesSrcs b.images)
    metadata := some [("vendor", MetaVal.str (jsOrS b.vendor "Unknown")),
                      ("shopify_handle", metaOfOpt b.handle)] }

/-- The `vendor_listings` row the `serve` loop builds for one product
(lines 200-212 of `part_000`). -/
def buildServeRow (vid : String) (p : ProductIn) : Listing :=
  { vendor_id := vid
    external_id := p.external_id
    fields := {
      title := p.title
      description := jsOrNullS p.description
      price := jsNumOrNull p.price
      category := jsOrNullS p.category
      inventory_count := jsOrI p.inventory_count 0
      status := jsOrS p.status "active"
      images := p.images.getD []
      metadata := p.metadata.getD []
      source := none
      visible_on_dashboard := none } }

/-- The per-product loop of the `serve` pipeline (lines 193-232 of
`part_000`): validate required fields, upsert, contain per-item failures.
`fail vid eid` models a persistence write that the store rejects.  Returns
(processed count, error messages, final store). -/
def serveLoop (fail : String → String → Bool) (vid : String) :
    List ProductIn → List Listing → Nat × List String × List Listing
  | [], store => (0, [], store)
  | p :: rest, store =>
    if jsFalsyS p.external_id || jsFalsyS p.title then
      let r := serveLoop fail vid rest store
      (r.1, "Product missing required fields: external_id and title are required" :: r.2.1,
       r.2.2)
    else
      let eid := p.external_id.getD ""
      if fail vid eid then
        let r := serveLoop fail vid rest store
        (r.1, ("Failed to sync product " ++ eid) :: r.2.1, r.2.2)
      else
        let r := serveLoop fail vid rest (upsertPair store (buildServeRow vid p))
        (r.1 + 1, r.2.1, r.2.2)

/-- Response of the `serve` pipeline. -/
structure ServeResponse where
  status : Nat
  error : Option String
  processed_count : Option Nat
  error_count : Option Nat
  errors : List String
  deriving Repr, DecidableEq

/-- A `serve` error response carrying only an error message. -/
def serveErrResp (status : Nat) (msg : String) : ServeResponse :=
  { status := status, error := some msg, processed_count := none, error_count := none,
    errors := [] }

/-- Run the loop and build the 200 response. -/
def serveRun (fail : String → String → Bool) (vid : String) (ps : List ProductIn)
    (store : List Listing) : ServeResponse × List Listing :=
  let r := serveLoop fail vid ps store
  ({ status := 200, error := none, processed_count := some r.1,
     error_count := some r.2.1.length, errors := r.2.1 }, r.2.2)

/-- Body handling of the `serve` pipeline after authentication: Shopify
transform when both `title` and `variants` keys are present (a missing `id`
makes `rawBody.id.toString()` throw, caught by the outer handler as a 500),
then the products-array safety check, the empty-array check, and the loop. -/
def serveAfterAuth (fail : String → String → Bool) (vid : String) (b : RawBody)
    (store : List Listing) : ServeResponse × List Listing :=
  if b.title.isSome && b.variants.isSome then
    match b.variants with
    | none => (serveErrResp 500 "Internal server error", store)
    | some vs =>
      match b.id with
      | none => (serveErrResp 500 "Internal server error", store)
      | some i => serveRun fail vid [serveShopifyProduct b i vs] store
  else
    match b.products with
    | JsProducts.arrVal ps =>
      if ps.isEmpty then (serveErrResp 400 "Empty products array", store)
      else serveRun fail vid ps store
    | _ => (serveErrResp 400 "Invalid request body: products array required", store)

/-- The full `serve` handler: CORS preflight, method check, Authorization
header shape check, credential lookup, then the body pipeline. -/
def serveHandler (creds : List ApiCredential) (fail : String → String → Bool)
    (store : List Listing) (method : String) (auth : Option String) (b : RawBody) :
    ServeResponse × List Listing :=
  if method == "OPTIONS" then
    ({ status := 200, error := none, processed_count := none, error_count := none,
       errors := [] }, store)
  else if !(method == "POST") then (serveErrResp 405 "Method not allowed", store)
  else
    match auth with
    | none => (serveErrResp 401 "Missing or invalid Authorization header", store)
    | some a =>
      if !(myStartsWith a "Bearer ") then
        (serveErrResp 401 "Missing or invalid Authorization header", store)
      else
        match credLookup creds (strDrop a 7) with
        | none => (serveErrResp 401 "Invalid API key", store)
        | some vid => serveAfterAuth fail vid b store

/-! ## Store-mapping catalog handlers (`catalog-sync.ts` and `part_001`) -/

/-- The single product these handlers synthesize from a Shopify-shaped body
when `payload.products` is falsy and `payload.title` is truthy, given the
already-computed `external_id` value. -/
def catalogProductOf (b : RawBody) (eid : Option String) : ProductIn :=
  { external_id := eid
    title := b.title
    description := some (jsOrS b.body_html "")
    price := some (parseFloatJS (variantPriceStr (b.variants.getD [])))
    category := some (jsOrS b.product_type "Uncategorized")
    inventory_count := some (jsOrI (firstVariantQty (b.variants.getD [])) 0)
    status := some "approved"
    images := some (imagesSrcs b.images)
    metadata := some [("vendor", MetaVal.str (jsOrS b.vendor "")),
                      ("handle", MetaVal.str (jsOrS b.handle "")),
                      ("shopify_id", metaNumOfOpt b.id)] }

/-- `payload.products || (payload.title ? [one synthesized product] : [])`.
`strictId` selects `payload.id.toString()` (`catalog-sync.ts`, which throws
when `id` is absent) over `payload.id?.toString()` (`part_001`).  A truthy
non-array `products` value and a thrown `toString` are modelled as `none`
(the handler fails, surfacing as an unhandled 500). -/
def catalogProducts (strictId : Bool) (b : RawBody) : Option (List ProductIn) :=
  match b.products with
  | JsProducts.arrVal ps => some ps
  | JsProducts.nonArray true => none
  | _ =>
    if jsTruthyS b.title then
      if strictId then
        match b.id with
        | none => none
        | some i => some [catalogProductOf b (some (toString i))]
      else some [catalogProductOf b (b.id.map toString)]
    else some []

/-- The `vendor_listings` row a catalog handler builds for one product
(`insertData`, lines 88-102 of `catalog-sync.ts` / 92-106 of `part_001`). -/
def catalogRow (vid : String) (p : ProductIn) : Listing :=
  { vendor_id := vid
    external_id := p.external_id
    fields := {
      title := p.title
      description := some (jsOrS p.description "")
      price := some (jsNumOr0 p.price)
      category := some (jsOrS p.category "Real Estate")
      inventory_count := jsOrI p.inventory_count 1
      status := "approved"
      images := p.images.getD []
      metadata := p.metadata.getD []
      source := some "shopify-sync"
      visible_on_dashboard := some true } }

/-- The per-product loop of the catalog handlers: upsert every product with
no field validation, ignore the upsert result, and echo every title.
Returns (synced count, titles, final store). -/
def catalogLoop (fail : String → String → Bool) (vid : String) :
    List ProductIn → List Listing → Nat × List (Option String) × List Listing
  | [], store => (0, [], store)
  | p :: rest, store =>
    let store1 :=
      if fail vid (p.external_id.getD "") then store
      else upsertPair store (catalogRow vid p)
    let r := catalogLoop fail vid rest store1
    (r.1 + 1, p.title :: r.2.1, r.2.2)

/-- Response of the catalog handlers. -/
structure CatResponse where
  status : Nat
  error : Option String
  success : Option Bool
  synced : Option Nat
  titles : List (Option String)
  deriving Repr, DecidableEq

/-- A catalog error response. -/
def catErrResp (status : Nat) (msg : String) : CatResponse :=
  { status := status, error := some msg, success := none, synced := none, titles := [] }

/-- Post-authentication part shared by both catalog handlers. -/
def catalogAfterAuth (strictId : Bool) (fail : String → String → Bool) (vid : String)
    (b : RawBody) (store : List Listing) : CatResponse × List Listing :=
  match catalogProducts strictId b with
  | none => (catErrResp 500 "Internal server error", store)
  | some ps =>
    let r := catalogLoop fail vid ps store
    ({ status := 200, error := none, success := some true, synced := some r.1,
       titles := r.2.1 }, r.2.2)

/-- The `catalog-sync.ts` handler. -/
def catalogSyncHandler (creds : List ApiCredential) (maps : List StoreMapping)
    (fail : String → String → Bool) (store : List Listing) (method : String)
    (auth : Option String) (b : RawBody) : CatResponse × List Listing :=
  if !(method == "POST") then (catErrResp 405 "Method Not Allowed", store)
  else
    match resolveVendorNameOnly creds maps auth b.vendor with
    | Except.error r => (catErrResp 401 (rejectMessageNameOnly r), store)
    | Except.ok vid => catalogAfterAuth true fail vid b store

/-- The `part_001` handler. -/
def storeSyncHandler (creds : List ApiCredential) (maps : List StoreMapping)
    (fail : String → String → Bool) (store : List Listing) (method : String)
    (auth : Option String) (shopDomainHeader : Option String) (b : RawBody) :
    CatResponse × List Listing :=
  if !(method == "POST") then (catErrResp 405 "Method Not Allowed", store)
  else
    match resolveVendor creds maps auth b.vendor shopDomainHeader with
    | Except.error r => (catErrResp 401 (rejectMessage r), store)
    | Except.ok vid => catalogAfterAuth false fail vid b store

/-! ## WhatsApp conversational channel (`whatsapp_product_sync.ts`) -/

/-- The fixed allowed-status enumeration. -/
def ALLOWED_STATUSES : List String := ["active", "inactive", "draft"]

/-- The structured fragment the AI extraction returns after JSON parsing. -/
structure AiFragment where
  title : Option String
  description : Option String
  price : Option JsNum
  currency : Option String
  category : Option String
  tags : Option (List String)
  images : Option (List String)
  location : Option String
  status : Option String
  external_id : Option String
  deriving Repr, DecidableEq

/-- The all-absent fragment. -/
def emptyFragment : AiFragment :=
  ⟨none, none, none, none, none, none, none, none, none, none⟩

/-- Outcome of the external extraction call: any transport error, non-OK
response or malformed (unparsable) body is `failure`; `success` carries the
parsed fragment. -/
inductive AiOutcome where
  | failure : AiOutcome
  | success : AiFragment → AiOutcome

/-- `aiExtractProduct` (lines 112-168): on success, a status outside the
allowed enumeration is deleted; on any failure the fallback fragment
`{ title: (text || "Untitled product").slice(0, 120) }` is returned. -/
def aiExtractProduct (text : String) (outcome : AiOutcome) : AiFragment :=
  match outcome with
  | AiOutcome.success parsed =>
    match parsed.status with
    | some s =>
      if ALLOWED_STATUSES.contains s then parsed else { parsed with status := none }
    | none => parsed
  | AiOutcome.failure =>
    { emptyFragment with title := some (jsSlice (jsOrSS text "Untitled product") 120) }

/-- A persisted `vendor_listings` row as written by the WhatsApp channel. -/
structure WaListing where
  vendor_id : String
  external_id : String
  title : String
  description : Option String
  price : Option JsNum
  currency : Option String
  category : Option String
  tags : List String
  images : List String
  location : Option String
  source : String
  status : String
  original_link : Option String
  deriving Repr, DecidableEq

/-- Argument object of `upsertListing`. -/
structure WaUpsertData where
  vendor_id : String
  external_id : String
  title : String
  description : Option String
  price : Option JsNum
  currency : Option String
  category : Option String
  tags : Option (List String)
  images : Option (List String)
  location : Option String
  status : Option String
  deriving Repr, DecidableEq

/-- The row `upsertListing` (lines 171-200) builds and posts. -/
def waPayloadRow (d : WaUpsertData) : WaListing :=
  { vendor_id := d.vendor_id
    external_id := d.external_id
    title := d.title
    description := jsOrNullS d.description
    price := d.price
    currency := jsOrNullS d.currency
    category := jsOrNullS d.category
    tags := d.tags.getD []
    images := d.images.getD []
    location := jsOrNullS d.location
    source := "whatsapp"
    status :=
      match d.status with
      | some s => if ALLOWED_STATUSES.contains s then s else "active"
      | none => "active"
    original_link := none }

/-- Conflict key of the WhatsApp upsert: `Prefer: resolution=merge-duplicates`
against the unique index on `external_id` alone. -/
def waKey (l : WaListing) : Option String := some l.external_id

/-- The WhatsApp upsert into `vendor_listings`. -/
def waUpsert (store : List WaListing) (row : WaListing) : List WaListing :=
  upsertRecord waKey store row

/-- Uniqueness invariant of the WhatsApp store view: at most one listing per
`external_id`. -/
def noDupExt (store : List WaListing) : Bool := recNoDup waKey store

/-- The row the WhatsApp handler upserts for one inbound message
(lines 285-303): truncated title, allowed-status filter, image union, and
`external_id: ai.external_id || messageId`. -/
def waHandlerRow (vendorId messageId : String) (ai : AiFragment)
    (imageUrls : List String) : WaListing :=
  let title := jsSlice (jsOrS ai.title "Untitled product") 200
  let status :=
    match ai.status with
    | some s => if ALLOWED_STATUSES.contains s then s else "active"
    | none => "active"
  let images := jsSetDedup ((ai.images.getD []) ++ imageUrls)
  waPayloadRow
    { vendor_id := vendorId
      external_id := jsOrS ai.external_id messageId
      title := title
      description := ai.description
      price := ai.price
      currency := some (jsOrS ai.currency "NGN")
      category := ai.category
      tags := ai.tags
      images := some images
      location := ai.location
      status := some status }

/-- The webhook verification branch of the WhatsApp handler (lines 204-213):
`hub.mode === "subscribe" && hub.verify_token === META_VERIFY_TOKEN` echoes
the challenge with 200, anything else is 403. -/
def waVerifyResponse (metaVerifyToken : String)
    (hubMode hubVerifyToken hubChallenge : Option String) : Nat × String :=
  if hubMode == some "subscribe" && hubVerifyToken == some metaVerifyToken then
    (200, hubChallenge.getD "")
  else (403, "Forbidden")

/-! ## Supporting lemmas about the pipelines -/

theorem string_eq_empty_iff (s : String) : s = "" ↔ s.data = [] := by
  constructor
  · intro h
    rw [h]
  · intro h
    cases s with
    | mk d => cases h; rfl

/-- Every item of a batch is accounted for: processed count plus error count
equals the batch length (the loop never aborts early). -/
theorem serveLoop_total (fail : String → String → Bool) (vid : String) :
    ∀ (ps : List ProductIn) (store : List Listing),
      (serveLoop fail vid ps store).1 + (serveLoop fail vid ps store).2.1.length
        = ps.length := by
  intro ps
  induction ps with
  | nil => intro store; rfl
  | cons p rest ih =>
    intro store
    rw [serveLoop]
    by_cases h1 : (jsFalsyS p.external_id || jsFalsyS p.title) = true
    · rw [if_pos h1]
      simp only [List.length_cons]
      have := ih store
      omega
    · rw [if_neg h1]
      by_cases h2 : fail vid (p.external_id.getD "") = true
      · rw [if_pos h2]
        simp only [List.length_cons]
        have := ih store
        omega
      · rw [if_neg h2]
        simp only [List.length_cons]
        have := ih (upsertPair store (buildServeRow vid p))
        omega

/-- The catalog loop counts and echoes every item unconditionally. -/
theorem catalogLoop_counts (fail : String → String → Bool) (vid : String) :
    ∀ (ps : List ProductIn) (store : List Listing),
      (catalogLoop fail vid ps store).1 = ps.length
      ∧ (catalogLoop fail vid ps store).2.1 = ps.map ProductIn.title := by
  intro ps
  induction ps with
  | nil => intro store; exact ⟨rfl, rfl⟩
  | cons p rest ih =>
    intro store
    rw [catalogLoop]
    constructor
    · simp only [List.length_cons]
      exact congrArg (· + 1) (ih _).1
    · simp only [List.map_cons]
      exact congrArg (p.title :: ·) (ih _).2

/-! ## Sample data used by the closed witnesses and counterexamples -/

/-- A one-credential `vendor_api_keys` table. -/
def sampleCreds : List ApiCredential := [⟨"k1", "v1", true⟩]

/-- A one-row `shopify_store_mappings` table. -/
def sampleMaps : List StoreMapping := [⟨"StoreA", "storea.myshopify.com", "v2"⟩]

/-- Listing fields of a first submission. -/
def sampleFieldsA : ListingFields :=
  { title := some "Chair", description := some "wooden chair", price := some ⟨4999, -2⟩,
    category := some "Furniture", inventory_count := 3, status := "active", images := [],
    metadata := [], source := none, visible_on_dashboard := none }

/-- Listing fields of a second submission for the same key. -/
def sampleFieldsB : ListingFields :=
  { title := some "Chair v2", description := none, price := some ⟨5999, -2⟩,
    category := some "Furniture", inventory_count := 1, status := "draft", images := [],
    metadata := [], source := none, visible_on_dashboard := none }

/-- The body `{"products": []}`. -/
def emptyProductsBody : RawBody :=
  { emptyRawBody with products := JsProducts.arrVal [] }

/-- A Shopify-shaped body with no `products` field. -/
def shopifyNoProductsBody : RawBody :=
  { emptyRawBody with
      id := some 9
      title := some "Chair"
      vendor := some "ACME"
      handle := some "chair-9"
      variants := some [⟨some "49.99", some 3⟩] }

/-- A Shopify-shaped body whose first variant price string is not numeric. -/
def badPriceBody : RawBody :=
  { emptyRawBody with
      id := some 7
      title := some "Lamp"
      variants := some [⟨some "abc", none⟩] }

/-- An extraction fragment with no `external_id`. -/
def sampleAiFragment : AiFragment :=
  { emptyFragment with title := some "Red shoes", price := some (JsNum.num ⟨1500, 0⟩) }

/-! ## Claims -/

/-- C1: the upsert is keyed on the pair `(vendor_id, external_id)`; submitting
a canonical product with the same pair twice with different field values
leaves exactly one persisted Listing for that pair, every listing with that
pair carries the second submission's field values whole-record
(last-write-wins), and the no-duplicate invariant is preserved. -/
theorem c1_upsert_pair_last_write_wins (store : List Listing) (v e : String)
    (f1 f2 : ListingFields) (hnod : noDupKeys store = true) :
    recCount keyOf (upsertPair (upsertPair store ⟨v, some e, f1⟩) ⟨v, some e, f2⟩) (v, e) = 1
    ∧ (∀ l ∈ upsertPair (upsertPair store ⟨v, some e, f1⟩) ⟨v, some e, f2⟩,
        l.vendor_id = v → l.external_id = some e → l.fields = f2)
    ∧ noDupKeys (upsertPair (upsertPair store ⟨v, some e, f1⟩) ⟨v, some e, f2⟩) = true := by
  have hk2 : keyOf (⟨v, some e, f2⟩ : Listing) = some (v, e) := rfl
  have hnod1 : recNoDup keyOf (upsertPair store ⟨v, some e, f1⟩) = true :=
    upsertRecord_noDup keyOf store _ hnod
  refine ⟨?_, ?_, ?_⟩
  · exact upsertRecord_count_one keyOf _ _ (v, e) hnod1 hk2
  · intro l hl hv he
    have hkl : keyOf l = some (v, e) := by
      rw [keyOf, he, hv]
    have hm : keyMatch keyOf l ⟨v, some e, f2⟩ = true :=
      (keyMatch_true_iff keyOf l _).mpr ⟨(v, e), hkl, hk2⟩
    have heq := upsertRecord_match_eq keyOf _ _ l hl hm
    rw [heq]
  · exact upsertRecord_noDup keyOf _ _ hnod1

theorem c1_witness :
    noDupKeys ([] : List Listing) = true
    ∧ (recCount keyOf
          (upsertPair (upsertPair [] ⟨"v1", some "p1", sampleFieldsA⟩)
            ⟨"v1", some "p1", sampleFieldsB⟩) ("v1", "p1") = 1
      ∧ (∀ l ∈ upsertPair (upsertPair [] ⟨"v1", some "p1", sampleFieldsA⟩)
            ⟨"v1", some "p1", sampleFieldsB⟩,
          l.vendor_id = "v1" → l.external_id = some "p1" → l.fields = sampleFieldsB)
      ∧ noDupKeys (upsertPair (upsertPair [] ⟨"v1", some "p1", sampleFieldsA⟩)
            ⟨"v1", some "p1", sampleFieldsB⟩) = true) :=
  ⟨by decide, c1_upsert_pair_last_write_wins [] "v1" "p1" sampleFieldsA sampleFieldsB
    (by decide)⟩

/-- C2: vendor resolution is exactly the spec's strict precedence chain —
a present non-empty token selects the credential lookup (body never
inspected; no match is `invalid_credential`); only an absent/empty token
falls through to the store-mapping lookup, preferring the explicit vendor
name over the shop-domain header, with `vendor_unmapped` on a failed lookup
and `missing_vendor_identifier` when no identifying field exists.  Moreover
the credential-only push handler agrees with the chain whenever a non-empty
token is present. -/
theorem c2_resolution_precedence (creds : List ApiCredential) (maps : List StoreMapping)
    (auth bv dh : Option String) :
    resolveVendor creds maps auth bv dh = specVendorResolve creds maps auth bv dh
    ∧ (¬ extractToken (auth.getD "") = "" →
        pushResolve creds auth = resolveVendor creds maps auth bv dh) := by
  constructor
  · by_cases ht : extractToken (auth.getD "") = ""
    · by_cases hn : bv.getD "" = ""
      · by_cases hd2 : dh.getD "" = ""
        · simp [resolveVendor, specVendorResolve, ht, hn, hd2]
        · simp [resolveVendor, specVendorResolve, ht, hn, hd2]
      · simp [resolveVendor, specVendorResolve, ht, hn]
    · simp [resolveVendor, specVendorResolve, ht]
  · intro ht
    simp [pushResolve, resolveVendor, ht]

theorem c2_witness :
    ¬ extractToken ((some "Bearer k1").getD "") = ""
    ∧ pushResolve sampleCreds (some "Bearer k1") =
        resolveVendor sampleCreds sampleMaps (some "Bearer k1") (some "StoreA") none :=
  ⟨by decide,
   (c2_resolution_precedence sampleCreds sampleMaps (some "Bearer k1") (some "StoreA")
      none).2 (by decide)⟩

/-- C3 counterexample: an authenticated POST of `{"products": []}` to the
edge-function pipeline is rejected with 400 "Empty products array", not
answered with a 200 success. -/
theorem c3_counterexample :
    credLookup sampleCreds (strDrop "Bearer k1" 7) = some "v1"
    ∧ (serveHandler sampleCreds (fun _ _ => false) [] "POST" (some "Bearer k1")
        emptyProductsBody).1.status = 400
    ∧ (serveHandler sampleCreds (fun _ _ => false) [] "POST" (some "Bearer k1")
        emptyProductsBody).1.error = some "Empty products array"
    ∧ ¬ (serveHandler sampleCreds (fun _ _ => false) [] "POST" (some "Bearer k1")
        emptyProductsBody).1.status = 200 := by
  refine ⟨by decide, by decide, by decide, by decide⟩

/-- C3 (amended): for every authenticated POST whose body is
`{"products": []}`, the two store-mapping catalog handlers return 200 with
zero synced items and leave the store untouched, while the edge-function
pipeline instead rejects the request with 400 "Empty products array". -/
theorem c3_empty_products_split (creds : List ApiCredential) (maps : List StoreMapping)
    (fail : String → String → Bool) (store : List Listing) (a vid vid2 : String)
    (dh : Option String)
    (hs1 : myStartsWith a "Bearer " = true)
    (hs2 : credLookup creds (strDrop a 7) = some vid)
    (ht : ¬ extractToken a = "")
    (hc : credLookup creds (extractToken a) = some vid2) :
    (serveHandler creds fail store "POST" (some a) emptyProductsBody).1 =
      serveErrResp 400 "Empty products array"
    ∧ (serveHandler creds fail store "POST" (some a) emptyProductsBody).2 = store
    ∧ (catalogSyncHandler creds maps fail store "POST" (some a) emptyProductsBody).1 =
      { status := 200, error := none, success := some true, synced := some 0, titles := [] }
    ∧ (catalogSyncHandler creds maps fail store "POST" (some a) emptyProductsBody).2 = store
    ∧ (storeSyncHandler creds maps fail store "POST" (some a) dh emptyProductsBody).1 =
      { status := 200, error := none, success := some true, synced := some 0, titles := [] }
    ∧ (storeSyncHandler creds maps fail store "POST" (some a) dh emptyProductsBody).2
      = store := by
  have hserve :
      serveHandler creds fail store "POST" (some a) emptyProductsBody =
        (serveErrResp 400 "Empty products array", store) := by
    simp [serveHandler, hs1, hs2, serveAfterAuth, emptyProductsBody, emptyRawBody]
  have hcat :
      catalogSyncHandler creds maps fail store "POST" (some a) emptyProductsBody =
        ({ status := 200, error := none, success := some true, synced := some 0,
           titles := [] }, store) := by
    simp [catalogSyncHandler, resolveVendorNameOnly, ht, hc, catalogAfterAuth,
      catalogProducts, catalogLoop, emptyProductsBody, emptyRawBody]
  have hstore :
      storeSyncHandler creds maps fail store "POST" (some a) dh emptyProductsBody =
        ({ status := 200, error := none, success := some true, synced := some 0,
           titles := [] }, store) := by
    simp [storeSyncHandler, resolveVendor, ht, hc, catalogAfterAuth,
      catalogProducts, catalogLoop, emptyProductsBody, emptyRawBody]
  rw [hserve, hcat, hstore]
  exact ⟨rfl, rfl, rfl, rfl, rfl, rfl⟩

theorem c3_witness :
    myStartsWith "Bearer k1" "Bearer " = true
    ∧ credLookup sampleCreds (strDrop "Bearer k1" 7) = some "v1"
    ∧ ¬ extractToken "Bearer k1" = ""
    ∧ credLookup sampleCreds (extractToken "Bearer k1") = some "v1"
    ∧ (catalogSyncHandler sampleCreds sampleMaps (fun _ _ => false) [] "POST"
        (some "Bearer k1") emptyProductsBody).1 =
      { status := 200, error := none, success := some true, synced := some 0,
        titles := [] } :=
  ⟨by decide, by decide, by decide, by decide,
   (c3_empty_products_split sampleCreds sampleMaps (fun _ _ => false) [] "Bearer k1"
      "v1" "v1" none (by decide) (by decide) (by decide) (by decide)).2.2.1⟩

/-- Whether the `products` field of a body is an array. -/
def productsIsArray : JsProducts → Bool
  | JsProducts.arrVal _ => true
  | _ => false

/-- C4 counterexample: an authenticated POST whose body has NO `products`
field but is Shopify-shaped (title and variants present) is processed with
200 — the synthesized product is upserted — rather than rejected with the
400 validation error the claim demands for a missing `products` field. -/
theorem c4_counterexample :
    shopifyNoProductsBody.products = JsProducts.absent
    ∧ credLookup sampleCreds (strDrop "Bearer k1" 7) = some "v1"
    ∧ (serveHandler sampleCreds (fun _ _ => false) [] "POST" (some "Bearer k1")
        shopifyNoProductsBody).1.status = 200
    ∧ (serveHandler sampleCreds (fun _ _ => false) [] "POST" (some "Bearer k1")
        shopifyNoProductsBody).1.processed_count = some 1
    ∧ ¬ (serveHandler sampleCreds (fun _ _ => false) [] "POST" (some "Bearer k1")
        shopifyNoProductsBody).1.status = 400 := by
  refine ⟨by decide, by decide, by decide, by decide, by decide⟩

/-- C4 (amended): for every authenticated POST to the edge-function pipeline
whose body's `products` field is missing or not an array, AND which is not
recognized as a single Shopify-shaped product (title and variants both
present, which bypasses the check by synthesizing a products array), the
pipeline returns the 400 validation error without touching the store. -/
theorem c4_products_validation (creds : List ApiCredential)
    (fail : String → String → Bool) (store : List Listing) (a vid : String) (b : RawBody)
    (hs1 : myStartsWith a "Bearer " = true)
    (hs2 : credLookup creds (strDrop a 7) = some vid)
    (hshape : (b.title.isSome && b.variants.isSome) = false)
    (hprod : productsIsArray b.products = false) :
    (serveHandler creds fail store "POST" (some a) b).1 =
      serveErrResp 400 "Invalid request body: products array required"
    ∧ (serveHandler creds fail store "POST" (some a) b).2 = store := by
  have h : serveHandler creds fail store "POST" (some a) b =
      (serveErrResp 400 "Invalid request body: products array required", store) := by
    have hstep : serveHandler creds fail store "POST" (some a) b
        = serveAfterAuth fail vid b store := by
      simp [serveHandler, hs1, hs2]
    rw [hstep]
    have hcond : ¬ ((b.title.isSome && b.variants.isSome) = true) := by simp [hshape]
    rw [serveAfterAuth, if_neg hcond]
    cases hp : b.products with
    | arrVal ps =>
      rw [hp] at hprod
      simp [productsIsArray] at hprod
    | absent => rfl
    | nonArray t => rfl
  rw [h]
  exact ⟨rfl, rfl⟩

theorem c4_witness :
    myStartsWith "Bearer k1" "Bearer " = true
    ∧ credLookup sampleCreds (strDrop "Bearer k1" 7) = some "v1"
    ∧ (emptyRawBody.title.isSome && emptyRawBody.variants.isSome) = false
    ∧ productsIsArray emptyRawBody.products = false
    ∧ (serveHandler sampleCreds (fun _ _ => false) [] "POST" (some "Bearer k1")
        emptyRawBody).1 =
      serveErrResp 400 "Invalid request body: products array required" :=
  ⟨by decide, by decide, by decide, by decide,
   (c4_products_validation sampleCreds (fun _ _ => false) [] "Bearer k1" "v1"
      emptyRawBody (by decide) (by decide) (by decide) (by decide)).1⟩

/-- C5: per-item failures are contained.  A batch of one item missing `title`
followed by one valid item reports `processed_count = 1` and
`error_count = 1`; the valid item's listing exists in the store afterwards;
and in general every item of any batch is accounted for as either processed
or an error — the loop never aborts siblings. -/
theorem c5_batch_error_containment (fail : String → String → Bool) (vid : String)
    (store : List Listing) (p q : ProductIn) (eid : String)
    (hbad : jsFalsyS p.title = true)
    (hqe : q.external_id = some eid) (heid : ¬ eid = "")
    (hqt : jsFalsyS q.title = false)
    (hfail : fail vid eid = false) :
    (serveLoop fail vid [p, q] store).1 = 1
    ∧ (serveLoop fail vid [p, q] store).2.1 =
      ["Product missing required fields: external_id and title are required"]
    ∧ recHas keyOf (serveLoop fail vid [p, q] store).2.2 (vid, eid) = true
    ∧ (∀ (ps : List ProductIn) (st : List Listing),
        (serveLoop fail vid ps st).1 + (serveLoop fail vid ps st).2.1.length
          = ps.length) := by
  have hqf : jsFalsyS q.external_id = false := by
    rw [hqe]
    simpa [jsFalsyS] using heid
  have hloop : serveLoop fail vid [p, q] store =
      (1, ["Product missing required fields: external_id and title are required"],
       upsertPair store (buildServeRow vid q)) := by
    rw [serveLoop, if_pos (by simp [hbad])]
    rw [serveLoop, if_neg (by simp [hqf, hqt])]
    rw [hqe]
    simp only [Option.getD_some]
    rw [if_neg (by simp [hfail])]
    rfl
  rw [hloop]
  refine ⟨rfl, rfl, ?_, serveLoop_total fail vid⟩
  have hrowkey : keyOf (buildServeRow vid q) = some (vid, eid) := by
    rw [keyOf, buildServeRow]
    simp [hqe]
  exact upsertRecord_has keyOf store (buildServeRow vid q) (vid, eid) hrowkey

/-- A product missing its title. -/
def sampleBadProduct : ProductIn :=
  { external_id := some "p9", title := none, description := none, price := none,
    category := none, inventory_count := none, status := none, images := none,
    metadata := none }

/-- A valid product. -/
def sampleGoodProduct : ProductIn :=
  { external_id := some "p1", title := some "Chair", description := none,
    price := some (JsNum.num ⟨4999, -2⟩), category := none, inventory_count := some 3,
    status := none, images := none, metadata := none }

theorem c5_witness :
    jsFalsyS sampleBadProduct.title = true
    ∧ sampleGoodProduct.external_id = some "p1"
    ∧ ¬ ("p1" : String) = ""
    ∧ jsFalsyS sampleGoodProduct.title = false
    ∧ (fun (_ : String) (_ : String) => false) "v1" "p1" = false
    ∧ (serveLoop (fun _ _ => false) "v1" [sampleBadProduct, sampleGoodProduct] []).1 = 1
    ∧ recHas keyOf
        (serveLoop (fun _ _ => false) "v1" [sampleBadProduct, sampleGoodProduct] []).2.2
        ("v1", "p1") = true :=
  ⟨by decide, by decide, by decide, by decide, by decide,
   (c5_batch_error_containment (fun _ _ => false) "v1" [] sampleBadProduct
      sampleGoodProduct "p1" (by decide) (by decide) (by decide) (by decide)
      (by decide)).1,
   (c5_batch_error_containment (fun _ _ => false) "v1" [] sampleBadProduct
      sampleGoodProduct "p1" (by decide) (by decide) (by decide) (by decide)
      (by decide)).2.2.1⟩

/-- C6 counterexample: for a Shopify-shaped body whose first variant carries
the non-numeric price string "abc", the synthesized product's price is `NaN`,
not 0 — refuting the claim's "(invalid or absent parses to 0)". -/
theorem c6_counterexample :
    (serveShopifyProduct badPriceBody 7 [⟨some "abc", none⟩]).price = some JsNum.nan
    ∧ parseFloatJS "abc" = JsNum.nan
    ∧ ¬ (serveShopifyProduct badPriceBody 7 [⟨some "abc", none⟩]).price
        = some (JsNum.num ⟨0, 0⟩) := by
  refine ⟨by decide, by decide, by decide⟩

/-- C6 (amended): a Shopify-shaped body (title and variant list present, with
its platform id) normalizes to exactly one product which the pipeline
processes as one item: external_id is the stringified platform id, price is
the JavaScript `parseFloat` of the first variant's price string — an absent
first variant defaults the string to "0", hence value 0, while a non-numeric
string yields `NaN` — inventory_count comes from the first variant's
quantity (absent yields 0), images are mapped from the image list, and
metadata captures the platform vendor label and handle. -/
theorem c6_shopify_normalization (fail : String → String → Bool) (vid : String)
    (store : List Listing) (b : RawBody) (t : String) (i : Int) (vs : List Variant)
    (ht : b.title = some t) (hv : b.variants = some vs) (hid : b.id = some i)
    (htne : ¬ t = "") (hidne : ¬ toString i = "")
    (hfail : fail vid (toString i) = false) :
    serveAfterAuth fail vid b store =
      ({ status := 200, error := none, processed_count := some 1, error_count := some 0,
         errors := [] },
       upsertPair store (buildServeRow vid (serveShopifyProduct b i vs)))
    ∧ (serveShopifyProduct b i vs).external_id = some (toString i)
    ∧ (serveShopifyProduct b i vs).price = some (parseFloatJS (variantPriceStr vs))
    ∧ (vs.head? = none → (serveShopifyProduct b i vs).price = some (JsNum.num ⟨0, 0⟩))
    ∧ (serveShopifyProduct b i vs).inventory_count = some (jsOrI (firstVariantQty vs) 0)
    ∧ (firstVariantQty vs = none → (serveShopifyProduct b i vs).inventory_count = some 0)
    ∧ (serveShopifyProduct b i vs).images = some (imagesSrcs b.images)
    ∧ (serveShopifyProduct b i vs).metadata =
        some [("vendor", MetaVal.str (jsOrS b.vendor "Unknown")),
              ("shopify_handle", metaOfOpt b.handle)]
    ∧ parseFloatJS "0" = JsNum.num ⟨0, 0⟩ := by
  have hcond : (b.title.isSome && b.variants.isSome) = true := by rw [ht, hv]; rfl
  have hmain : serveAfterAuth fail vid b store =
      ({ status := 200, error := none, processed_count := some 1, error_count := some 0,
         errors := [] },
       upsertPair store (buildServeRow vid (serveShopifyProduct b i vs))) := by
    rw [serveAfterAuth, if_pos hcond, hv, hid]
    have hno : ¬ ((jsFalsyS (serveShopifyProduct b i vs).external_id
        || jsFalsyS (serveShopifyProduct b i vs).title) = true) := by
      simp [serveShopifyProduct, jsFalsyS, ht, htne, hidne]
    have hone : serveLoop fail vid [serveShopifyProduct b i vs] store =
        (1, [], upsertPair store (buildServeRow vid (serveShopifyProduct b i vs))) := by
      rw [serveLoop, if_neg hno]
      rw [show (serveShopifyProduct b i vs).external_id.getD "" = toString i from rfl]
      rw [if_neg (by simp [hfail])]
      rfl
    unfold serveRun
    dsimp only
    rw [hone]
    rfl
  refine ⟨hmain, rfl, rfl, ?_, rfl, ?_, rfl, rfl, by decide⟩
  · intro h
    have hps : variantPriceStr vs = "0" := by
      rw [variantPriceStr, h]
    show some (parseFloatJS (variantPriceStr vs)) = some (JsNum.num ⟨0, 0⟩)
    rw [hps]
    decide
  · intro h
    show some (jsOrI (firstVariantQty vs) 0) = some 0
    rw [h]
    rfl

theorem c6_witness :
    shopifyNoProductsBody.title = some "Chair"
    ∧ shopifyNoProductsBody.variants = some [⟨some "49.99", some 3⟩]
    ∧ shopifyNoProductsBody.id = some 9
    ∧ ¬ ("Chair" : String) = ""
    ∧ ¬ toString (9 : Int) = ""
    ∧ (fun (_ : String) (_ : String) => false) "v1" (toString (9 : Int)) = false
    ∧ serveAfterAuth (fun _ _ => false) "v1" shopifyNoProductsBody [] =
      ({ status := 200, error := none, processed_count := some 1, error_count := some 0,
         errors := [] },
       upsertPair [] (buildServeRow "v1"
         (serveShopifyProduct shopifyNoProductsBody 9 [⟨some "49.99", some 3⟩])))
    ∧ (serveShopifyProduct shopifyNoProductsBody 9 [⟨some "49.99", some 3⟩]).price
        = some (parseFloatJS (variantPriceStr [⟨some "49.99", some 3⟩])) :=
  ⟨by decide, by decide, by decide, by decide, by decide, by decide,
   (c6_shopify_normalization (fun _ _ => false) "v1" [] shopifyNoProductsBody "Chair" 9
      [⟨some "49.99", some 3⟩] (by decide) (by decide) (by decide) (by decide)
      (by decide) (by decide)).1,
   (c6_shopify_normalization (fun _ _ => false) "v1" [] shopifyNoProductsBody "Chair" 9
      [⟨some "49.99", some 3⟩] (by decide) (by decide) (by decide) (by decide)
      (by decide) (by decide)).2.2.1⟩

/-- C7 counterexample: when the input text is empty, the extraction fallback
title is the fixed placeholder "Untitled product", which is not a truncated
version of the (empty) input text — refuting the claim's "title is a
truncated version of the input text" for every input. -/
theorem c7_counterexample :
    (aiExtractProduct "" AiOutcome.failure).title = some "Untitled product"
    ∧ jsSlice "" 120 = ""
    ∧ ¬ (aiExtractProduct "" AiOutcome.failure).title = some (jsSlice "" 120) := by
  refine ⟨by decide, by decide, by decide⟩

/-- C7 (amended): on any failure of the external extraction call the adapter
returns a fragment rather than propagating the failure; its title is always
present, non-empty and at most 120 characters; it is the input text
truncated to 120 characters whenever the input is non-empty, and the fixed
placeholder "Untitled product" when the input is empty. -/
theorem c7_extraction_fallback (text : String) :
    (aiExtractProduct text AiOutcome.failure).title.isSome = true
    ∧ ¬ (aiExtractProduct text AiOutcome.failure).title = some ""
    ∧ ((aiExtractProduct text AiOutcome.failure).title.getD "").length ≤ 120
    ∧ (¬ text = "" →
        (aiExtractProduct text AiOutcome.failure).title = some (jsSlice text 120))
    ∧ (text = "" →
        (aiExtractProduct text AiOutcome.failure).title = some "Untitled product") := by
  by_cases h : text = ""
  · subst h
    refine ⟨by decide, by decide, by decide, fun hc => absurd rfl hc, fun _ => by decide⟩
  · have hb : (text == "") = false := by
      simpa using h
    have htitle : (aiExtractProduct text AiOutcome.failure).title
        = some (jsSlice text 120) := by
      show some (jsSlice (jsOrSS text "Untitled product") 120) = some (jsSlice text 120)
      rw [jsOrSS, hb]
      rfl
    refine ⟨by rw [htitle]; rfl, ?_, ?_, fun _ => htitle, fun hc => absurd hc h⟩
    · rw [htitle]
      intro hc
      have hsl : jsSlice text 120 = "" := by
        exact Option.some_injective _ hc
      have hdata : text.data.take 120 = [] := by
        have := (string_eq_empty_iff (jsSlice text 120)).mp hsl
        simpa [jsSlice] using this
      rcases List.take_eq_nil_iff.mp hdata with h120 | hnil
      · exact absurd h120 (by decide)
      · exact h ((string_eq_empty_iff text).mpr hnil)
    · rw [htitle]
      show (jsSlice text 120).length ≤ 120
      have : (jsSlice text 120).length = (text.data.take 120).length := rfl
      rw [this, List.length_take]
      exact Nat.min_le_left 120 _

theorem c7_witness :
    ¬ ("Selling a nice wooden chair, 25k" : String) = ""
    ∧ (aiExtractProduct "Selling a nice wooden chair, 25k" AiOutcome.failure).title =
        some (jsSlice "Selling a nice wooden chair, 25k" 120) :=
  ⟨by decide,
   (c7_extraction_fallback "Selling a nice wooden chair, 25k").2.2.2.1 (by decide)⟩

/-- C8 counterexample: a GET verification request whose token matches the
configured secret but whose `hub.mode` is not "subscribe" is answered 403,
not 200 — the claim omits the mode condition. -/
theorem c8_counterexample :
    waVerifyResponse "secret1" (some "unsubscribe") (some "secret1") (some "ch42") =
      (403, "Forbidden")
    ∧ ¬ (waVerifyResponse "secret1" (some "unsubscribe") (some "secret1")
          (some "ch42")).1 = 200 := by
  refine ⟨by decide, by decide⟩

/-- C8 (amended): the verification handshake answers 200 echoing the
challenge exactly when `hub.mode` is "subscribe" AND the supplied token
equals the configured verification secret; in every other case it answers
403 "Forbidden". -/
theorem c8_verification_handshake (cfg : String) (mode tok ch : Option String) :
    (mode = some "subscribe" ∧ tok = some cfg →
      waVerifyResponse cfg mode tok ch = (200, ch.getD ""))
    ∧ (¬ (mode = some "subscribe" ∧ tok = some cfg) →
      waVerifyResponse cfg mode tok ch = (403, "Forbidden")) := by
  constructor
  · rintro ⟨h1, h2⟩
    rw [waVerifyResponse, if_pos (by simp [h1, h2])]
  · intro h
    rw [waVerifyResponse, if_neg]
    intro hc
    rw [Bool.and_eq_true] at hc
    exact h ⟨by simpa using hc.1, by simpa using hc.2⟩

theorem c8_witness :
    ((some "subscribe" : Option String) = some "subscribe"
      ∧ (some "secret1" : Option String) = some "secret1")
    ∧ waVerifyResponse "secret1" (some "subscribe") (some "secret1") (some "ch42") =
        (200, "ch42") :=
  ⟨⟨rfl, rfl⟩,
   (c8_verification_handshake "secret1" (some "subscribe") (some "secret1")
      (some "ch42")).1 ⟨rfl, rfl⟩⟩

/-- C9: in both store-mapping catalog handlers, an authenticated POST with a
`products` array is answered 200 with `synced` equal to the array length and
every element's title echoed back — for every persistence-failure pattern
and every product list, including items missing `external_id` or `title`:
no per-item validation happens and the upsert result is never inspected. -/
theorem c9_catalog_counts_everything (creds : List ApiCredential)
    (maps : List StoreMapping) (fail : String → String → Bool) (store : List Listing)
    (auth dh : Option String) (b : RawBody) (vid vid2 : String) (ps : List ProductIn)
    (hps : b.products = JsProducts.arrVal ps)
    (h1 : resolveVendorNameOnly creds maps auth b.vendor = Except.ok vid)
    (h2 : resolveVendor creds maps auth b.vendor dh = Except.ok vid2) :
    (catalogSyncHandler creds maps fail store "POST" auth b).1.status = 200
    ∧ (catalogSyncHandler creds maps fail store "POST" auth b).1.synced
        = some ps.length
    ∧ (catalogSyncHandler creds maps fail store "POST" auth b).1.titles
        = ps.map ProductIn.title
    ∧ (storeSyncHandler creds maps fail store "POST" auth dh b).1.status = 200
    ∧ (storeSyncHandler creds maps fail store "POST" auth dh b).1.synced
        = some ps.length
    ∧ (storeSyncHandler creds maps fail store "POST" auth dh b).1.titles
        = ps.map ProductIn.title := by
  have hprod : ∀ strict : Bool, catalogProducts strict b = some ps := by
    intro strict
    rw [catalogProducts, hps]
  have hcat : (catalogSyncHandler creds maps fail store "POST" auth b).1 =
      { status := 200, error := none, success := some true,
        synced := some (catalogLoop fail vid ps store).1,
        titles := (catalogLoop fail vid ps store).2.1 } := by
    rw [catalogSyncHandler, if_neg (by decide), h1]
    unfold catalogAfterAuth
    rw [hprod true]
  have hsto : (storeSyncHandler creds maps fail store "POST" auth dh b).1 =
      { status := 200, error := none, success := some true,
        synced := some (catalogLoop fail vid2 ps store).1,
        titles := (catalogLoop fail vid2 ps store).2.1 } := by
    rw [storeSyncHandler, if_neg (by decide), h2]
    unfold catalogAfterAuth
    rw [hprod false]
  rw [hcat, hsto]
  obtain ⟨hc1, hc2⟩ := catalogLoop_counts fail vid ps store
  obtain ⟨hd1, hd2⟩ := catalogLoop_counts fail vid2 ps store
  exact ⟨rfl, by rw [hc1], by rw [hc2], rfl, by rw [hd1], by rw [hd2]⟩

/-- A `products` array with one item missing both required fields and one
valid item. -/
def sampleMixedProducts : List ProductIn :=
  [{ external_id := none, title := none, description := none, price := none,
     category := none, inventory_count := none, status := none, images := none,
     metadata := none },
   sampleGoodProduct]

/-- A body carrying `sampleMixedProducts`. -/
def mixedProductsBody : RawBody :=
  { emptyRawBody with products := JsProducts.arrVal sampleMixedProducts }

theorem c9_witness :
    mixedProductsBody.products = JsProducts.arrVal sampleMixedProducts
    ∧ resolveVendorNameOnly sampleCreds sampleMaps (some "Bearer k1")
        mixedProductsBody.vendor = Except.ok "v1"
    ∧ resolveVendor sampleCreds sampleMaps (some "Bearer k1") mixedProductsBody.vendor
        none = Except.ok "v1"
    ∧ (catalogSyncHandler sampleCreds sampleMaps (fun _ _ => true) [] "POST"
        (some "Bearer k1") mixedProductsBody).1.synced = some sampleMixedProducts.length
    ∧ (catalogSyncHandler sampleCreds sampleMaps (fun _ _ => true) [] "POST"
        (some "Bearer k1") mixedProductsBody).1.titles
          = sampleMixedProducts.map ProductIn.title :=
  ⟨by decide, by decide, by decide,
   (c9_catalog_counts_everything sampleCreds sampleMaps (fun _ _ => true) []
      (some "Bearer k1") none mixedProductsBody "v1" "v1" sampleMixedProducts
      (by decide) (by decide) (by decide)).2.1,
   (c9_catalog_counts_everything sampleCreds sampleMaps (fun _ _ => true) []
      (some "Bearer k1") none mixedProductsBody "v1" "v1" sampleMixedProducts
      (by decide) (by decide) (by decide)).2.2.1⟩

/-- C10: the listing row the WhatsApp handler upserts takes the WhatsApp
message id as its `external_id` whenever the extraction result carries no
(non-empty) external_id, and the extraction's own value otherwise; replaying
the very same message is a no-op on the store, and after the upsert exactly
one listing carries that `external_id` — redelivery targets the same record
instead of creating a new one. -/
theorem c10_message_id_idempotency (vendorId messageId : String) (ai : AiFragment)
    (imgs : List String) (store : List WaListing) :
    (jsFalsyS ai.external_id = true →
      (waHandlerRow vendorId messageId ai imgs).external_id = messageId)
    ∧ (∀ s : String, ai.external_id = some s → ¬ s = "" →
        (waHandlerRow vendorId messageId ai imgs).external_id = s)
    ∧ waUpsert (waUpsert store (waHandlerRow vendorId messageId ai imgs))
        (waHandlerRow vendorId messageId ai imgs)
      = waUpsert store (waHandlerRow vendorId messageId ai imgs)
    ∧ (noDupExt store = true →
        recCount waKey (waUpsert store (waHandlerRow vendorId messageId ai imgs))
          (waHandlerRow vendorId messageId ai imgs).external_id = 1) := by
  have hext : (waHandlerRow vendorId messageId ai imgs).external_id
      = jsOrS ai.external_id messageId := rfl
  refine ⟨?_, ?_, ?_, ?_⟩
  · intro hf
    rw [hext]
    cases hai : ai.external_id with
    | none => rfl
    | some s =>
      rw [hai] at hf
      simp only [jsFalsyS] at hf
      show (if s == "" then messageId else s) = messageId
      rw [if_pos hf]
  · intro s hs hne
    rw [hext, hs]
    show (if s == "" then messageId else s) = s
    rw [if_neg (by simpa using hne)]
  · exact upsertRecord_idem waKey store (waHandlerRow vendorId messageId ai imgs)
      (waHandlerRow vendorId messageId ai imgs).external_id rfl
  · intro hnod
    exact upsertRecord_count_one waKey store (waHandlerRow vendorId messageId ai imgs)
      (waHandlerRow vendorId messageId ai imgs).external_id hnod rfl

theorem c10_witness :
    jsFalsyS sampleAiFragment.external_id = true
    ∧ noDupExt ([] : List WaListing) = true
    ∧ (waHandlerRow "v9" "wamid.123" sampleAiFragment []).external_id = "wamid.123"
    ∧ recCount waKey (waUpsert [] (waHandlerRow "v9" "wamid.123" sampleAiFragment []))
        (waHandlerRow "v9" "wamid.123" sampleAiFragment []).external_id = 1 :=
  ⟨by decide, by decide,
   (c10_message_id_idempotency "v9" "wamid.123" sampleAiFragment [] []).1 (by decide),
   (c10_message_id_idempotency "v9" "wamid.123" sampleAiFragment [] []).2.2.2
     (by decide)⟩
